import Mathlib

/-
Verification of the frug rendering library (src/lib.rs): a shallow
embedding of the FrugInstance session type, its operations (resize,
render, set_background_color), the surface-format selection performed
during initialization, the static geometry constants, and the winit
event-loop driver in `run`.

Modelling conventions:
- Machine floats (f32 vertex data, f64 color channels) are modelled as
  rationals. No arithmetic is ever performed on them in the source
  (they are stored and passed through verbatim), so exact values are
  faithful for all claims considered here.
- u16 index values and u32 sizes are modelled as Nat; all concrete
  values are far below the respective moduli and the source performs
  no arithmetic on them that could overflow.
- GPU side effects (surface configuration, command submission,
  presentation) are recorded in an explicit trace of GpuOp values.
- The winit event loop invokes the closure passed to run once per
  delivered event; a batch of pending events is delivered as a
  sequence of closure invocations, terminated by MainEventsCleared.
  After the closure returns with ControlFlow.Exit the loop stops
  delivering events. processEvents models the dispatch of one such
  sequence of events.
-/

namespace Frug

/-- wgpu Color: four f64 channels, stored and compared verbatim. -/
structure Color where
  r : ℚ
  g : ℚ
  b : ℚ
  a : ℚ
deriving DecidableEq, Repr

/-- Vertex struct from src/lib.rs: position and color, three f32 each. -/
structure Vertex where
  position : ℚ × ℚ × ℚ
  color : ℚ × ℚ × ℚ
deriving DecidableEq, Repr

/-- The static VERTICES constant from src/lib.rs. -/
def VERTICES : List Vertex :=
  [ ⟨(-0.0868241, 0.49240386, 0.0), (0.5, 0.0, 0.5)⟩,
    ⟨(-0.49513406, 0.06958647, 0.0), (0.5, 0.0, 0.5)⟩,
    ⟨(-0.21918549, -0.44939706, 0.0), (0.5, 0.0, 0.5)⟩,
    ⟨(0.35966998, -0.3473291, 0.0), (0.5, 0.0, 0.5)⟩,
    ⟨(0.44147372, 0.2347359, 0.0), (0.5, 0.0, 0.5)⟩ ]

/-- The static INDICES constant from src/lib.rs (u16 values). -/
def INDICES : List ℕ := [0, 1, 4, 1, 2, 4, 2, 3, 4]

/-- A surface texture format; srgb is the gamma-corrected flag queried
via describe().srgb in the source. The id field distinguishes formats. -/
structure TextureFormat where
  id : ℕ
  srgb : Bool
deriving DecidableEq, Repr

/-- Surface-format selection from new_instance:
surface_caps.formats.iter().copied().filter(srgb).next().unwrap_or(formats[0]).
The indexing panic on an empty capability list is modelled as none. -/
def selectSurfaceFormat (formats : List TextureFormat) : Option TextureFormat :=
  match (formats.filter fun f => f.srgb).head? with
  | some f => some f
  | none => formats.head?

/-- winit PhysicalSize with u32 dimensions. -/
structure PhysicalSize where
  width : ℕ
  height : ℕ
deriving DecidableEq, Repr

/-- wgpu SurfaceConfiguration as built in new_instance. The usage field
is constantly RENDER_ATTACHMENT and view_formats constantly empty in the
source, so they are omitted; present and alpha modes are opaque ids. -/
structure SurfaceConfiguration where
  format : TextureFormat
  width : ℕ
  height : ℕ
  presentMode : ℕ
  alphaMode : ℕ
deriving DecidableEq, Repr

inductive PrimitiveTopology
  | PointList | LineList | LineStrip | TriangleList | TriangleStrip
deriving DecidableEq, Repr

inductive FrontFace
  | Ccw | Cw
deriving DecidableEq, Repr

inductive Face
  | Front | Back
deriving DecidableEq, Repr

inductive PolygonMode
  | Fill | Line | Point
deriving DecidableEq, Repr

inductive IndexFormat
  | Uint16 | Uint32
deriving DecidableEq, Repr

/-- The named wgpu BlendState constants. -/
inductive BlendState
  | REPLACE | ALPHA_BLENDING | PREMULTIPLIED_ALPHA_BLENDING
deriving DecidableEq, Repr

/-- wgpu PrimitiveState as written in the render-pipeline descriptor. -/
structure PrimitiveState where
  topology : PrimitiveTopology
  stripIndexFormat : Option IndexFormat
  frontFace : FrontFace
  cullMode : Option Face
  unclippedDepth : Bool
  polygonMode : PolygonMode
  conservative : Bool
deriving DecidableEq, Repr

/-- wgpu MultisampleState; mask is the u64 literal written as the
complement of zero. -/
structure MultisampleState where
  count : ℕ
  mask : ℕ
  alphaToCoverageEnabled : Bool
deriving DecidableEq, Repr

/-- The state of the fixed render pipeline built in new_instance:
primitive state, depth-stencil state, multisample state, and the blend
state of the single color target. -/
structure RenderPipelineDescr where
  primitive : PrimitiveState
  depthStencil : Option Unit
  multisample : MultisampleState
  blend : Option BlendState
deriving DecidableEq, Repr

/-- The pipeline descriptor constants from new_instance, lines 150-183
of src/lib.rs. -/
def renderPipelineDesc : RenderPipelineDescr :=
  { primitive :=
      { topology := .TriangleList
        stripIndexFormat := none
        frontFace := .Ccw
        cullMode := some .Back
        unclippedDepth := false
        polygonMode := .Fill
        conservative := false }
    depthStencil := none
    multisample :=
      { count := 1
        mask := 2 ^ 64 - 1
        alphaToCoverageEnabled := false }
    blend := some .REPLACE }

/-- The FrugInstance session state: surface configuration, stored size,
background color, pipeline, the two geometry buffers and the index
count. Opaque GPU handles (surface, device, queue, window) carry no
observable state of their own and are represented by the trace of
operations issued against them. -/
structure FrugInstance where
  config : SurfaceConfiguration
  size : PhysicalSize
  backgroundColor : Color
  renderPipeline : RenderPipelineDescr
  vertexBuffer : List Vertex
  indexBuffer : List ℕ
  numIndices : ℕ
deriving DecidableEq, Repr

/-- The session state assembled by new_instance, parameterized by the
externally supplied window size and surface capabilities (selected
format, first present mode, first alpha mode). -/
def mkFrugInstance (size : PhysicalSize) (fmt : TextureFormat)
    (presentMode alphaMode : ℕ) : FrugInstance :=
  { config :=
      { format := fmt
        width := size.width
        height := size.height
        presentMode := presentMode
        alphaMode := alphaMode }
    size := size
    backgroundColor := ⟨0, 0, 0, 1⟩
    renderPipeline := renderPipelineDesc
    vertexBuffer := VERTICES
    indexBuffer := INDICES
    numIndices := INDICES.length }

/-- Commands recorded inside a render pass. -/
inductive RenderPassCmd
  | setPipeline (p : RenderPipelineDescr)
  | setVertexBuffer (slot : ℕ) (data : List Vertex)
  | setIndexBuffer (data : List ℕ) (format : IndexFormat)
  | drawIndexed (idxStart idxEnd : ℕ) (baseVertex : ℤ) (instStart instEnd : ℕ)
deriving DecidableEq, Repr

/-- A recorded render pass: the clear color of its single color
attachment, the store flag, and the command sequence. -/
structure RenderPass where
  clearColor : Color
  store : Bool
  cmds : List RenderPassCmd
deriving DecidableEq, Repr

/-- A finished command buffer: the render passes recorded into it. -/
structure CommandBuffer where
  passes : List RenderPass
deriving DecidableEq, Repr

/-- Observable GPU operations. -/
inductive GpuOp
  | configureSurface (cfg : SurfaceConfiguration)
  | submit (buffers : List CommandBuffer)
  | present
deriving DecidableEq, Repr

/-- wgpu SurfaceError, the error type of render. -/
inductive SurfaceError
  | Timeout | Outdated | Lost | OutOfMemory
deriving DecidableEq, Repr

/-- FrugInstance.resize: no-op unless both dimensions are positive;
otherwise updates the stored size, the configuration width and height,
and reconfigures the surface. -/
def FrugInstance.resize (s : FrugInstance) (newSize : PhysicalSize) :
    FrugInstance × List GpuOp :=
  if newSize.width > 0 ∧ newSize.height > 0 then
    let cfg := { s.config with width := newSize.width, height := newSize.height }
    ({ s with size := newSize, config := cfg }, [.configureSurface cfg])
  else
    (s, [])

/-- FrugInstance.set_background_color: stores the color; no GPU work. -/
def FrugInstance.set_background_color (s : FrugInstance) (color : Color) :
    FrugInstance × List GpuOp :=
  ({ s with backgroundColor := color }, [])

/-- FrugInstance.render. The outcome of surface.get_current_texture is
an external input, modelled by the acquire argument: some e is a failed
acquisition with error e (propagated by the question-mark operator),
none is a successful acquisition. On success the function records one
render pass clearing to the stored background color, submits the single
finished command buffer, and presents. It mutates no session field. -/
def FrugInstance.render (s : FrugInstance) (acquire : Option SurfaceError) :
    Except SurfaceError Unit × List GpuOp :=
  match acquire with
  | some e => (.error e, [])
  | none =>
    let pass : RenderPass :=
      { clearColor := s.backgroundColor
        store := true
        cmds :=
          [ .setPipeline s.renderPipeline,
            .setVertexBuffer 0 s.vertexBuffer,
            .setIndexBuffer s.indexBuffer .Uint16,
            .drawIndexed 0 s.numIndices 0 0 1 ] }
    (.ok (), [.submit [⟨[pass]⟩], .present])

/-- The winit events the closure in run distinguishes. All modelled
events target the session window (the source ignores events for other
window ids, which behave like OtherEvent). -/
inductive WinitEvent
  | CloseRequested
  | Resized (physicalSize : PhysicalSize)
  | ScaleFactorChanged (newInnerSize : PhysicalSize)
  | OtherWindowEvent
  | RedrawRequested
  | MainEventsCleared
  | OtherEvent
deriving DecidableEq, Repr

/-- winit ControlFlow, restricted to the two values run writes. -/
inductive ControlFlow
  | Wait | Exit
deriving DecidableEq, Repr

/-- State threaded through the event-loop closure. -/
structure LoopState where
  inst : FrugInstance
  controlFlow : ControlFlow
deriving DecidableEq, Repr

instance {ε α : Type} [DecidableEq ε] [DecidableEq α] :
    DecidableEq (Except ε α) := fun a b =>
  match a, b with
  | .ok x, .ok y =>
    if h : x = y then .isTrue (by rw [h]) else .isFalse (by simp [h])
  | .error x, .error y =>
    if h : x = y then .isTrue (by rw [h]) else .isFalse (by simp [h])
  | .ok _, .error _ => .isFalse (by simp)
  | .error _, .ok _ => .isFalse (by simp)

/-- Observable actions of the driver closure: a render attempt with its
outcome, a resize call with its argument, a redraw request, GPU
operations issued by the callees, and an invocation of the user
callback (window loop). -/
inductive DriverOp
  | renderCall (result : Except SurfaceError Unit)
  | resizeCall (size : PhysicalSize)
  | requestRedraw
  | gpu (op : GpuOp)
  | callback
deriving DecidableEq, Repr

/-- One invocation of the closure passed to event-loop run, on one
delivered event: set the control flow to Wait, dispatch on the event
(close sets Exit; resize and scale-factor-change call resize; redraw
calls render and applies the error-kind dispatch of lines 321-329;
main-events-cleared requests a redraw), then call the user callback. -/
def handleEvent (st : LoopState) (ev : WinitEvent)
    (acquire : Option SurfaceError) : LoopState × List DriverOp :=
  let st0 : LoopState := { st with controlFlow := .Wait }
  let (st1, tr) : LoopState × List DriverOp :=
    match ev with
    | .CloseRequested => ({ st0 with controlFlow := .Exit }, [])
    | .Resized physicalSize =>
      let (i, g) := st0.inst.resize physicalSize
      ({ st0 with inst := i }, .resizeCall physicalSize :: g.map .gpu)
    | .ScaleFactorChanged newInnerSize =>
      let (i, g) := st0.inst.resize newInnerSize
      ({ st0 with inst := i }, .resizeCall newInnerSize :: g.map .gpu)
    | .OtherWindowEvent => (st0, [])
    | .RedrawRequested =>
      let (res, g) := st0.inst.render acquire
      match res with
      | .ok _ => (st0, .renderCall res :: g.map .gpu)
      | .error .Lost =>
        let (i, g2) := st0.inst.resize st0.inst.size
        ({ st0 with inst := i },
          .renderCall res :: g.map .gpu
            ++ .resizeCall st0.inst.size :: g2.map .gpu)
      | .error .OutOfMemory =>
        ({ st0 with controlFlow := .Exit }, .renderCall res :: g.map .gpu)
      | .error _ => (st0, .renderCall res :: g.map .gpu)
    | .MainEventsCleared => (st0, [.requestRedraw])
    | .OtherEvent => (st0, [])
  (st1, tr ++ [.callback])

/-- Dispatch of a sequence of pending events: the closure runs once per
event; after an invocation leaves the control flow at Exit, the loop
stops delivering events. Each event carries the acquisition outcome its
render attempt (if any) would see. -/
def processEvents (st : LoopState) :
    List (WinitEvent × Option SurfaceError) → LoopState × List DriverOp
  | [] => (st, [])
  | (ev, acq) :: rest =>
    let (st1, tr) := handleEvent st ev acq
    match st1.controlFlow with
    | .Exit => (st1, tr)
    | .Wait =>
      let (st2, tr2) := processEvents st1 rest
      (st2, tr ++ tr2)

/-- The session states reachable in a program run: the state assembled
by new_instance, closed under the mutating operations resize and
set_background_color (render mutates no field). -/
inductive Reachable : FrugInstance → Prop
  | init (size : PhysicalSize) (fmt : TextureFormat) (pm am : ℕ) :
      Reachable (mkFrugInstance size fmt pm am)
  | resizeStep {s : FrugInstance} (sz : PhysicalSize) :
      Reachable s → Reachable (s.resize sz).1
  | setBgStep {s : FrugInstance} (c : Color) :
      Reachable s → Reachable (s.set_background_color c).1

/-- Number of render attempts in a driver trace. -/
def renderCount (tr : List DriverOp) : ℕ :=
  (tr.filter fun op =>
    match op with
    | .renderCall _ => true
    | _ => false).length

/-- The arguments of the resize calls in a driver trace, in order. -/
def resizeArgs (tr : List DriverOp) : List PhysicalSize :=
  tr.filterMap fun op =>
    match op with
    | .resizeCall sz => some sz
    | _ => none

/-- Number of user-callback invocations in a driver trace. -/
def callbackCount (tr : List DriverOp) : ℕ :=
  (tr.filter fun op =>
    match op with
    | .callback => true
    | _ => false).length

/-- The argument lists of the submit operations in a GPU trace. -/
def submissions (ops : List GpuOp) : List (List CommandBuffer) :=
  ops.filterMap fun op =>
    match op with
    | .submit buffers => some buffers
    | _ => none

/-- Number of present operations in a GPU trace. -/
def presentCount (ops : List GpuOp) : ℕ :=
  (ops.filter fun op =>
    match op with
    | .present => true
    | _ => false).length

/-- The indexed draw calls recorded in a render pass, as tuples of
index range start and end, base vertex, and instance range. -/
def drawsOf (p : RenderPass) : List (ℕ × ℕ × ℤ × ℕ × ℕ) :=
  p.cmds.filterMap fun c =>
    match c with
    | .drawIndexed a b v i j => some (a, b, v, i, j)
    | _ => none

/-- The render passes contained in all submitted command buffers of a
GPU trace, in submission order. -/
def passesOf (ops : List GpuOp) : List RenderPass :=
  (submissions ops).flatten.flatMap fun b => b.passes

/-- A concrete session: an 800 by 600 window with an srgb surface
format and default present and alpha modes. -/
def sampleInstance : FrugInstance :=
  mkFrugInstance ⟨800, 600⟩ ⟨0, true⟩ 0 0

-- Theorems

/-- Helper: the first element of a filtered list is the first element
satisfying the predicate. -/
theorem head?_filter_eq_find? {α : Type} (p : α → Bool) (l : List α) :
    (l.filter p).head? = l.find? p := by
  induction l with
  | nil => rfl
  | cons a t ih =>
    by_cases h : p a = true
    · simp [List.filter_cons, List.find?_cons, h]
    · simp only [Bool.not_eq_true] at h
      simp [List.filter_cons, List.find?_cons, h, ih]

/-- Helper: resize never changes the stored index count. -/
theorem resize_numIndices (s : FrugInstance) (sz : PhysicalSize) :
    (s.resize sz).1.numIndices = s.numIndices := by
  unfold FrugInstance.resize
  split <;> rfl

/-- Helper: every reachable session stores index count 9. -/
theorem reachable_numIndices {s : FrugInstance} (h : Reachable s) :
    s.numIndices = 9 := by
  induction h with
  | init size fmt pm am => rfl
  | resizeStep sz _ ih => rw [resize_numIndices]; exact ih
  | setBgStep c _ ih => exact ih

/-- C8: every element of the static index sequence is strictly less
than the static vertex count, which is 5. -/
theorem index_buffer_invariant :
    (∀ i ∈ INDICES, i < VERTICES.length) ∧ VERTICES.length = 5 := by
  constructor
  · decide
  · rfl

/-- C3: for every new size with positive width and height, resize
updates the stored session size and the configuration width and height
to the new dimensions exactly, and reconfigures the surface with the
updated configuration. -/
theorem resize_positive_spec (s : FrugInstance) (newSize : PhysicalSize)
    (hw : 0 < newSize.width) (hh : 0 < newSize.height) :
    (s.resize newSize).1.size = newSize ∧
    (s.resize newSize).1.config.width = newSize.width ∧
    (s.resize newSize).1.config.height = newSize.height ∧
    (s.resize newSize).2 = [.configureSurface (s.resize newSize).1.config] := by
  simp [FrugInstance.resize, hw, hh]

theorem resize_positive_spec_witness :
    0 < (1024 : ℕ) ∧ 0 < (768 : ℕ) ∧
    ((sampleInstance.resize ⟨1024, 768⟩).1.size = ⟨1024, 768⟩ ∧
     (sampleInstance.resize ⟨1024, 768⟩).1.config.width = 1024 ∧
     (sampleInstance.resize ⟨1024, 768⟩).1.config.height = 768 ∧
     (sampleInstance.resize ⟨1024, 768⟩).2 =
       [.configureSurface (sampleInstance.resize ⟨1024, 768⟩).1.config]) :=
  ⟨by decide, by decide,
    resize_positive_spec sampleInstance ⟨1024, 768⟩ (by decide) (by decide)⟩

/-- C4: for every new size with zero width or zero height, resize is a
no-op: the whole session state is unchanged (every field) and no GPU
operation, in particular no surface reconfiguration, is issued. -/
theorem resize_zero_noop (s : FrugInstance) (newSize : PhysicalSize)
    (h : newSize.width = 0 ∨ newSize.height = 0) :
    s.resize newSize = (s, []) := by
  rcases h with h | h <;> simp [FrugInstance.resize, h]

theorem resize_zero_noop_witness :
    ((0 : ℕ) = 0 ∨ (600 : ℕ) = 0) ∧
    sampleInstance.resize ⟨0, 600⟩ = (sampleInstance, []) :=
  ⟨Or.inl rfl, resize_zero_noop sampleInstance ⟨0, 600⟩ (Or.inl rfl)⟩

/-- C5: set_background_color stores the new color, leaves every other
session field unchanged, performs no GPU work, and a subsequent
successful render records exactly one render pass whose clear color is
exactly the stored color. -/
theorem set_background_color_spec (s : FrugInstance) (c : Color) :
    (s.set_background_color c).1.backgroundColor = c ∧
    (s.set_background_color c).1.config = s.config ∧
    (s.set_background_color c).1.size = s.size ∧
    (s.set_background_color c).1.renderPipeline = s.renderPipeline ∧
    (s.set_background_color c).1.vertexBuffer = s.vertexBuffer ∧
    (s.set_background_color c).1.indexBuffer = s.indexBuffer ∧
    (s.set_background_color c).1.numIndices = s.numIndices ∧
    (s.set_background_color c).2 = [] ∧
    (passesOf ((s.set_background_color c).1.render none).2).map
      RenderPass.clearColor = [c] := by
  refine ⟨rfl, rfl, rfl, rfl, rfl, rfl, rfl, rfl, ?_⟩
  simp [FrugInstance.set_background_color, FrugInstance.render,
    passesOf, submissions]

/-- C10: immediately after new_instance returns, for any window size
and surface capabilities, the background color is opaque black, and the
first render (before any set_background_color call) records exactly one
render pass clearing to opaque black. -/
theorem initial_background_black (size : PhysicalSize)
    (fmt : TextureFormat) (pm am : ℕ) :
    (mkFrugInstance size fmt pm am).backgroundColor = ⟨0, 0, 0, 1⟩ ∧
    (passesOf ((mkFrugInstance size fmt pm am).render none).2).map
      RenderPass.clearColor = [⟨0, 0, 0, 1⟩] := by
  refine ⟨rfl, ?_⟩
  simp [mkFrugInstance, FrugInstance.render, passesOf, submissions]

/-- C2: for every reachable session, a single successful render submits
exactly one command buffer containing exactly one render pass with
exactly one indexed draw whose index range is 0 to 9 (index count 9,
the full static range), followed by exactly one present operation. -/
theorem render_success_spec (s : FrugInstance) (h : Reachable s) :
    (s.render none).1 = .ok () ∧
    ∃ pass : RenderPass,
      submissions (s.render none).2 = [[⟨[pass]⟩]] ∧
      drawsOf pass = [(0, 9, 0, 0, 1)] ∧
      presentCount (s.render none).2 = 1 ∧
      (s.render none).2 = [.submit [⟨[pass]⟩], .present] := by
  refine ⟨rfl, ?_⟩
  refine ⟨{ clearColor := s.backgroundColor
            store := true
            cmds := [ .setPipeline s.renderPipeline,
                      .setVertexBuffer 0 s.vertexBuffer,
                      .setIndexBuffer s.indexBuffer .Uint16,
                      .drawIndexed 0 s.numIndices 0 0 1 ] }, ?_, ?_, ?_, ?_⟩
  · rfl
  · simp [drawsOf, reachable_numIndices h]
  · rfl
  · rfl

theorem render_success_spec_witness :
    Reachable sampleInstance ∧
    ((sampleInstance.render none).1 = .ok () ∧
     ∃ pass : RenderPass,
       submissions (sampleInstance.render none).2 = [[⟨[pass]⟩]] ∧
       drawsOf pass = [(0, 9, 0, 0, 1)] ∧
       presentCount (sampleInstance.render none).2 = 1 ∧
       (sampleInstance.render none).2 = [.submit [⟨[pass]⟩], .present]) :=
  ⟨Reachable.init ⟨800, 600⟩ ⟨0, true⟩ 0 0,
   render_success_spec sampleInstance (Reachable.init ⟨800, 600⟩ ⟨0, true⟩ 0 0)⟩

/-- C6 counterexample: the claim as stated is false, because the fixed
pipeline sets counter-clockwise front-face winding (FrontFace.Ccw at
line 170 of src/lib.rs), not clockwise. All the other claimed settings
do hold, so the conjunction fails exactly at the winding. -/
theorem pipeline_state_cex :
    ¬ (renderPipelineDesc.primitive.topology = .TriangleList ∧
       renderPipelineDesc.primitive.cullMode = some .Back ∧
       renderPipelineDesc.primitive.frontFace = .Cw ∧
       renderPipelineDesc.primitive.polygonMode = .Fill ∧
       renderPipelineDesc.depthStencil = none ∧
       renderPipelineDesc.multisample.count = 1 ∧
       renderPipelineDesc.blend = some .REPLACE) := by
  intro h
  exact absurd h.2.2.1 (by decide)

/-- C6 amended: the fixed pipeline uses triangle-list topology,
back-face culling, counter-clockwise front-face winding, fill polygon
mode, no depth or stencil state, single-sample multisampling, and
replace blending. -/
theorem pipeline_state_amended :
    renderPipelineDesc.primitive.topology = .TriangleList ∧
    renderPipelineDesc.primitive.cullMode = some .Back ∧
    renderPipelineDesc.primitive.frontFace = .Ccw ∧
    renderPipelineDesc.primitive.polygonMode = .Fill ∧
    renderPipelineDesc.depthStencil = none ∧
    renderPipelineDesc.multisample.count = 1 ∧
    renderPipelineDesc.blend = some .REPLACE := by
  refine ⟨rfl, rfl, rfl, rfl, rfl, rfl, rfl⟩

/-- C7: for every non-empty capability list, the selected surface
format is the first format flagged as gamma-corrected when one exists,
and otherwise the first format of the list. -/
theorem surface_format_selection (formats : List TextureFormat)
    (h : formats ≠ []) :
    ((∃ f ∈ formats, f.srgb = true) →
      selectSurfaceFormat formats = formats.find? fun f => f.srgb) ∧
    ((∀ f ∈ formats, f.srgb = false) →
      selectSurfaceFormat formats = some (formats.head h)) := by
  constructor
  · intro hex
    have hfind : (formats.find? fun f => f.srgb).isSome := by
      rcases hex with ⟨f, hf, hsrgb⟩
      exact List.find?_isSome.mpr ⟨f, hf, hsrgb⟩
    rcases Option.isSome_iff_exists.mp hfind with ⟨g, hg⟩
    unfold selectSurfaceFormat
    rw [head?_filter_eq_find?, hg]
  · intro hnone
    have hfilter : formats.filter (fun f => f.srgb) = [] := by
      rw [List.filter_eq_nil_iff]
      intro f hf
      simp [hnone f hf]
    unfold selectSurfaceFormat
    rw [hfilter]
    simp [List.head?_eq_head h]

theorem surface_format_selection_witness :
    ([⟨0, false⟩, ⟨1, true⟩, ⟨2, true⟩] : List TextureFormat) ≠ [] ∧
    (∃ f ∈ ([⟨0, false⟩, ⟨1, true⟩, ⟨2, true⟩] : List TextureFormat),
      f.srgb = true) ∧
    selectSurfaceFormat [⟨0, false⟩, ⟨1, true⟩, ⟨2, true⟩] =
      some ⟨1, true⟩ := by
  refine ⟨by decide, ⟨⟨1, true⟩, by decide, by decide⟩, ?_⟩
  have := (surface_format_selection [⟨0, false⟩, ⟨1, true⟩, ⟨2, true⟩]
    (by decide)).1 ⟨⟨1, true⟩, by decide, by decide⟩
  rw [this]
  decide

/-- Helper: callback count distributes over trace concatenation. -/
theorem callbackCount_append (a b : List DriverOp) :
    callbackCount (a ++ b) = callbackCount a + callbackCount b := by
  simp [callbackCount, List.filter_append]

/-- Helper: render count distributes over trace concatenation. -/
theorem renderCount_append (a b : List DriverOp) :
    renderCount (a ++ b) = renderCount a + renderCount b := by
  simp [renderCount, List.filter_append]

/-- Helper: resize arguments distribute over trace concatenation. -/
theorem resizeArgs_append (a b : List DriverOp) :
    resizeArgs (a ++ b) = resizeArgs a ++ resizeArgs b := by
  simp [resizeArgs]

/-- Helper: GPU operations embedded in a driver trace are not callback
invocations. -/
theorem callbackCount_map_gpu (g : List GpuOp) :
    callbackCount (g.map DriverOp.gpu) = 0 := by
  induction g with
  | nil => rfl
  | cons a t ih => simp [callbackCount, List.filter_cons]

/-- Helper: GPU operations embedded in a driver trace are not render
attempts. -/
theorem renderCount_map_gpu (g : List GpuOp) :
    renderCount (g.map DriverOp.gpu) = 0 := by
  induction g with
  | nil => rfl
  | cons a t ih => simp [renderCount, List.filter_cons]

/-- Helper: GPU operations embedded in a driver trace are not resize
calls. -/
theorem resizeArgs_map_gpu (g : List GpuOp) :
    resizeArgs (g.map DriverOp.gpu) = [] := by
  induction g with
  | nil => rfl
  | cons a t ih => simp [resizeArgs, List.filterMap_cons]

/-- Helper: each closure invocation runs the user callback exactly
once. -/
theorem callbackCount_handleEvent (st : LoopState) (ev : WinitEvent)
    (acq : Option SurfaceError) :
    callbackCount (handleEvent st ev acq).2 = 1 := by
  cases ev with
  | CloseRequested => rfl
  | Resized sz =>
    rcases hres : st.inst.resize sz with ⟨i, g⟩
    simp [handleEvent, hres, callbackCount_append, callbackCount_map_gpu,
      callbackCount, List.filter_cons]
  | ScaleFactorChanged sz =>
    rcases hres : st.inst.resize sz with ⟨i, g⟩
    simp [handleEvent, hres, callbackCount_append, callbackCount_map_gpu,
      callbackCount, List.filter_cons]
  | OtherWindowEvent => rfl
  | RedrawRequested =>
    cases acq with
    | none => rfl
    | some e =>
      cases e with
      | Lost =>
        rcases hres : st.inst.resize st.inst.size with ⟨i, g⟩
        simp [handleEvent, FrugInstance.render, hres, callbackCount_append,
          callbackCount_map_gpu, callbackCount, List.filter_cons]
      | Timeout => rfl
      | Outdated => rfl
      | OutOfMemory => rfl
  | MainEventsCleared => rfl
  | OtherEvent => rfl

/-- Helper: the user callback is the last action of every closure
invocation, that is, it runs after the event is dispatched. -/
theorem handleEvent_last_callback (st : LoopState) (ev : WinitEvent)
    (acq : Option SurfaceError) :
    (handleEvent st ev acq).2.getLast? = some .callback := by
  have h : ∃ pre, (handleEvent st ev acq).2 = pre ++ [DriverOp.callback] := by
    unfold handleEvent
    exact ⟨_, rfl⟩
  rcases h with ⟨pre, hpre⟩
  rw [hpre]
  simp

/-- Helper: over a batch, the callback runs at most once per delivered
event, and at least once when the batch is non-empty. -/
theorem callbackCount_processEvents (st : LoopState)
    (evs : List (WinitEvent × Option SurfaceError)) :
    callbackCount (processEvents st evs).2 ≤ evs.length ∧
    (evs ≠ [] → 1 ≤ callbackCount (processEvents st evs).2) := by
  induction evs generalizing st with
  | nil => exact ⟨Nat.le_refl 0, fun h => absurd rfl h⟩
  | cons p t ih =>
    rcases p with ⟨ev, acq⟩
    have h1 : callbackCount (handleEvent st ev acq).2 = 1 :=
      callbackCount_handleEvent st ev acq
    rcases hhe : handleEvent st ev acq with ⟨st1, tr⟩
    rw [hhe] at h1
    simp only [processEvents, hhe]
    cases hcf : st1.controlFlow with
    | Exit =>
      refine ⟨?_, fun _ => ?_⟩
      · simp [h1, Nat.le_add_right]
      · simp [h1]
    | Wait =>
      rcases ih st1 with ⟨ihle, _⟩
      refine ⟨?_, fun _ => ?_⟩
      · simp only [callbackCount_append, h1, List.length_cons]
        omega
      · simp only [callbackCount_append, h1]
        omega

/-- C1: error-kind dispatch of the run-loop driver. On a redraw whose
render fails with Lost, the driver calls resize exactly once, with the
last known stored size, and attempts no further render in that
dispatch, leaving the loop running; on OutOfMemory the driver sets the
control flow to Exit and the rest of the pending events produce no
further render calls; on any other render error the session state is
unchanged, no resize is called, and the loop keeps running. -/
theorem run_error_dispatch (st : LoopState)
    (rest : List (WinitEvent × Option SurfaceError)) (e : SurfaceError)
    (hL : e ≠ .Lost) (hOOM : e ≠ .OutOfMemory) :
    ((handleEvent st .RedrawRequested (some .Lost)).2 =
        .renderCall (.error .Lost) :: .resizeCall st.inst.size ::
          ((st.inst.resize st.inst.size).2.map .gpu ++ [.callback]) ∧
     resizeArgs (handleEvent st .RedrawRequested (some .Lost)).2 =
       [st.inst.size] ∧
     renderCount (handleEvent st .RedrawRequested (some .Lost)).2 = 1 ∧
     (handleEvent st .RedrawRequested (some .Lost)).1.controlFlow = .Wait ∧
     (handleEvent st .RedrawRequested (some .Lost)).1.inst =
       (st.inst.resize st.inst.size).1) ∧
    ((processEvents st ((.RedrawRequested, some .OutOfMemory) :: rest)).1.controlFlow
        = .Exit ∧
     renderCount
       (processEvents st ((.RedrawRequested, some .OutOfMemory) :: rest)).2
        = 1) ∧
    ((handleEvent st .RedrawRequested (some e)).1.inst = st.inst ∧
     (handleEvent st .RedrawRequested (some e)).1.controlFlow = .Wait ∧
     resizeArgs (handleEvent st .RedrawRequested (some e)).2 = []) := by
  refine ⟨?_, ?_, ?_⟩
  · rcases hres : st.inst.resize st.inst.size with ⟨i, g⟩
    refine ⟨?_, ?_, ?_, ?_, ?_⟩ <;>
      simp [handleEvent, FrugInstance.render, hres, resizeArgs,
        List.filterMap_append, resizeArgs_map_gpu, renderCount,
        List.filter_append, renderCount_map_gpu, List.filter_cons]
  · constructor <;>
      simp [processEvents, handleEvent, FrugInstance.render, renderCount,
        List.filter_cons]
  · cases e with
    | Lost => exact absurd rfl hL
    | OutOfMemory => exact absurd rfl hOOM
    | Timeout =>
      exact ⟨rfl, rfl, rfl⟩
    | Outdated =>
      exact ⟨rfl, rfl, rfl⟩

theorem run_error_dispatch_witness :
    SurfaceError.Timeout ≠ SurfaceError.Lost ∧
    SurfaceError.Timeout ≠ SurfaceError.OutOfMemory ∧
    ((handleEvent ⟨sampleInstance, .Wait⟩ .RedrawRequested
        (some .Timeout)).1.inst = sampleInstance ∧
     (handleEvent ⟨sampleInstance, .Wait⟩ .RedrawRequested
        (some .Timeout)).1.controlFlow = .Wait ∧
     resizeArgs (handleEvent ⟨sampleInstance, .Wait⟩ .RedrawRequested
        (some .Timeout)).2 = []) :=
  ⟨by decide, by decide,
   (run_error_dispatch ⟨sampleInstance, .Wait⟩ [] .Timeout
     (by decide) (by decide)).2.2⟩

/-- C9 counterexample: the user callback is not invoked exactly once
per processed event batch. For a pending batch of two events (an
ignored event followed by the main-events-cleared signal) the closure
runs twice and so does the callback. -/
theorem callback_once_per_batch_cex :
    ¬ (callbackCount (processEvents ⟨sampleInstance, .Wait⟩
        [(.OtherEvent, none), (.MainEventsCleared, none)]).2 = 1) := by
  intro h
  have h2 : callbackCount (processEvents ⟨sampleInstance, .Wait⟩
      [(.OtherEvent, none), (.MainEventsCleared, none)]).2 = 2 := rfl
  rw [h2] at h
  exact absurd h (by decide)

/-- C9 amended: the user callback is invoked exactly once per delivered
event (once per closure invocation), after that event is dispatched;
over a batch of pending events it therefore runs once per processed
event: at least once for a non-empty batch and at most once per event
of the batch, rather than exactly once per batch. -/
theorem callback_per_event_amended (st : LoopState) (ev : WinitEvent)
    (acq : Option SurfaceError)
    (evs : List (WinitEvent × Option SurfaceError)) (hne : evs ≠ []) :
    callbackCount (handleEvent st ev acq).2 = 1 ∧
    (handleEvent st ev acq).2.getLast? = some .callback ∧
    1 ≤ callbackCount (processEvents st evs).2 ∧
    callbackCount (processEvents st evs).2 ≤ evs.length :=
  ⟨callbackCount_handleEvent st ev acq,
   handleEvent_last_callback st ev acq,
   (callbackCount_processEvents st evs).2 hne,
   (callbackCount_processEvents st evs).1⟩

theorem callback_per_event_amended_witness :
    ([(.MainEventsCleared, none)] :
        List (WinitEvent × Option SurfaceError)) ≠ [] ∧
    (callbackCount (handleEvent ⟨sampleInstance, .Wait⟩ .OtherEvent
        none).2 = 1 ∧
     (handleEvent ⟨sampleInstance, .Wait⟩ .OtherEvent
        none).2.getLast? = some .callback ∧
     1 ≤ callbackCount (processEvents ⟨sampleInstance, .Wait⟩
        [(.MainEventsCleared, none)]).2 ∧
     callbackCount (processEvents ⟨sampleInstance, .Wait⟩
        [(.MainEventsCleared, none)]).2 ≤
       ([(.MainEventsCleared, none)] :
         List (WinitEvent × Option SurfaceError)).length) :=
  ⟨by decide,
   callback_per_event_amended ⟨sampleInstance, .Wait⟩ .OtherEvent none
     [(.MainEventsCleared, none)] (by decide)⟩

end Frug
